import Mathlib

/-!
Verification of the compliance-analysis core of `redhat_legaltech_ai`.

Shallow embedding of:
  * `call_data_service.py` — the violation rule engine
    (`_analyze_call_drops`, `_get_drop_penalty_tier`,
    `analyze_compliance_violations`);
  * `rag_service.py` — chunking and the retrieval store
    (`chunk_text`, `add_document`, `clear_documents`);
  * `document_service.py` — the direct-context strategy
    (`_generate_summary`, `get_context_for_query`).

Numeric cells are modelled by `PFloat`, a pandas-style value domain with
`nan` (missing cell / 0÷0), signed infinities (nonzero ÷ 0) and exact
rationals standing for the float values; pandas reductions skip `nan` and
comparisons with `nan` are false, which `psum` / `PFloat.gtQ` mirror.
External capabilities (text generation, embeddings) are oracle functions
passed as parameters, returning `Except` to model transport errors.
Python exceptions inside the engine (pandas `KeyError` on a column access
outside a detector's presence guard) are modelled with `Except String`;
in-place dataframe mutation is modelled by threading the dataframe
through every operation and returning the updated one.
-/

/-! ### Computable rational arithmetic

The rational operations below are written directly over `Rat.divInt`
(numerator/denominator form) so that every concrete computation reduces
in the kernel; they agree with the field operations on `ℚ`. -/

/-- Exact rational addition in numerator/denominator form. -/
def qAdd (a b : ℚ) : ℚ :=
  Rat.divInt (a.num * (b.den : ℤ) + b.num * (a.den : ℤ)) ((a.den : ℤ) * (b.den : ℤ))

/-- Exact rational multiplication in numerator/denominator form. -/
def qMul (a b : ℚ) : ℚ :=
  Rat.divInt (a.num * b.num) ((a.den : ℤ) * (b.den : ℤ))

/-- Exact rational division in numerator/denominator form (caller guards
the zero denominator, as the embedded code does). -/
def qDiv (a b : ℚ) : ℚ :=
  Rat.divInt (a.num * (b.den : ℤ)) ((a.den : ℤ) * b.num)

/-- `a < b` by cross-multiplication (denominators are positive). -/
def qLt (a b : ℚ) : Bool :=
  decide (a.num * (b.den : ℤ) < b.num * (a.den : ℤ))

/-- `a ≤ b` by cross-multiplication (denominators are positive). -/
def qLe (a b : ℚ) : Bool :=
  decide (a.num * (b.den : ℤ) ≤ b.num * (a.den : ℤ))

/-- pandas-style numeric cell: `nan` is a missing value (or 0/0),
`inf`/`ninf` arise from division by zero, `val q` is an ordinary number
(floats modelled by exact rationals). -/
inductive PFloat where
  | nan : PFloat
  | inf : PFloat
  | ninf : PFloat
  | val : ℚ → PFloat
deriving DecidableEq

namespace PFloat

/-- IEEE-style addition on the cell domain (used by the skip-nan sum). -/
def add : PFloat → PFloat → PFloat
  | nan, _ => nan
  | _, nan => nan
  | inf, ninf => nan
  | ninf, inf => nan
  | inf, _ => inf
  | _, inf => inf
  | ninf, _ => ninf
  | _, ninf => ninf
  | val a, val b => val (qAdd a b)

/-- IEEE-style division: pandas vectorised division yields `inf`/`-inf`
for nonzero/0 and `nan` for 0/0 instead of raising. -/
def div : PFloat → PFloat → PFloat
  | nan, _ => nan
  | _, nan => nan
  | inf, inf => nan
  | inf, ninf => nan
  | ninf, inf => nan
  | ninf, ninf => nan
  | inf, val b => if b.num < 0 then ninf else inf
  | ninf, val b => if b.num < 0 then inf else ninf
  | val _, inf => val 0
  | val _, ninf => val 0
  | val a, val b =>
      if b.num = 0 then (if 0 < a.num then inf else if a.num < 0 then ninf else nan)
      else val (qDiv a b)

/-- Multiplication by a rational constant (used for `* 100`). -/
def mulQ : PFloat → ℚ → PFloat
  | nan, _ => nan
  | inf, c => if 0 < c.num then inf else if c.num < 0 then ninf else nan
  | ninf, c => if 0 < c.num then ninf else if c.num < 0 then inf else nan
  | val a, c => val (qMul a c)

/-- `x > c` with `nan` incomparable, as in pandas boolean filters. -/
def gtQ : PFloat → ℚ → Bool
  | nan, _ => false
  | inf, _ => true
  | ninf, _ => false
  | val a, c => qLt c a

/-- `x < c` with `nan` incomparable. -/
def ltQ : PFloat → ℚ → Bool
  | nan, _ => false
  | inf, _ => false
  | ninf, _ => true
  | val a, c => qLt a c

/-- `x ≤ c` with `nan` incomparable. -/
def leQ : PFloat → ℚ → Bool
  | nan, _ => false
  | inf, _ => false
  | ninf, _ => true
  | val a, c => qLe a c

end PFloat

/-- `Except` values as sums, to transport decidable equality. -/
def exceptToSum {ε α : Type} : Except ε α → ε ⊕ α
  | .error e => .inl e
  | .ok a => .inr a

instance {ε α : Type} [DecidableEq ε] [DecidableEq α] : DecidableEq (Except ε α) :=
  fun a b =>
    decidable_of_iff (exceptToSum a = exceptToSum b)
      (by cases a <;> cases b <;> simp [exceptToSum])

/-- pandas `Series.sum()` with the default `skipna=True`: missing cells
are ignored, the rest are added (an empty sum is 0). -/
def psum (l : List PFloat) : PFloat :=
  l.foldl (fun a x => match x with | .nan => a | y => a.add y) (.val 0)

/-! ### Data model of the rule engine (`call_data_service.py`) -/

/-- The `call_time` column.  `parses` records whether
`pd.to_datetime(df['call_time'])` succeeds; `hours` holds the local hour
of each parsed cell (`none` = null/NaT); `converted` records whether the
in-place datetime conversion has been applied to the column. -/
structure TimeColumn where
  parses : Bool
  hours : List (Option ℕ)
  converted : Bool
deriving DecidableEq

/-- A pandas dataframe restricted to the columns the engine touches.
`none` = column absent (detectors guard on presence); a present column
is the list of its cells, one per row.  `customer_drop_rate` and `hour`
are the derived columns the scan itself writes onto the dataframe. -/
structure DataFrame where
  nrows : ℕ
  customer_id : Option (List (Option String))
  service_area : Option (List (Option String))
  caller_number : Option (List (Option String))
  tot_call_cnt_d : Option (List PFloat)
  call_drop_cnt_d : Option (List PFloat)
  call_duration : Option (List PFloat)
  call_time : Option TimeColumn
  customer_drop_rate : Option (List PFloat)
  hour : Option (List (Option ℕ))
deriving DecidableEq

/-- A present column holds one cell per row. -/
def DataFrame.WF (df : DataFrame) : Prop :=
  (∀ c, df.customer_id = some c → c.length = df.nrows) ∧
  (∀ c, df.service_area = some c → c.length = df.nrows) ∧
  (∀ c, df.caller_number = some c → c.length = df.nrows) ∧
  (∀ c, df.tot_call_cnt_d = some c → c.length = df.nrows) ∧
  (∀ c, df.call_drop_cnt_d = some c → c.length = df.nrows) ∧
  (∀ c, df.call_duration = some c → c.length = df.nrows) ∧
  (∀ c, df.call_time = some c → c.hours.length = df.nrows)

/-- One violation finding.  The interpolated free-text fields of the
source dictionaries (`description`, `violation_severity`, sample-record
dumps, …) are data the engine never reads back; the embedding keeps the
fields the downstream logic consumes: the `type` string (the summary
greps it for `"Drop"`), the `count`, and the `penalty_range` string
(absent on findings whose source dict has no such key). -/
structure Violation where
  vtype : String
  count : PFloat
  penalty_range : Option String
deriving DecidableEq

/-- The three risk tiers of `_analyze_call_drops` /
`analyze_compliance_violations`. -/
structure Violations where
  high : List Violation
  medium : List Violation
  low : List Violation
deriving DecidableEq

/-- Tier-wise concatenation (the source `extend`s / `append`s each tier
list in order). -/
def Violations.append (a b : Violations) : Violations :=
  ⟨a.high ++ b.high, a.medium ++ b.medium, a.low ++ b.low⟩

/-- The empty finding set. -/
def noViolations : Violations := ⟨[], [], []⟩

/-- Result of `_get_drop_penalty_tier`: the penalty-range string and the
tier number appearing in its `calculation` string (whose interpolated
rate text is not modelled). -/
structure PenaltyTier where
  penalty : String
  tierNum : ℕ
deriving DecidableEq

namespace CallDataService

/-- `_get_drop_penalty_tier` (call_data_service.py:231-252): graded
penalty sub-tier for a drop rate already known to exceed 2%. -/
def get_drop_penalty_tier (drop_rate : PFloat) : PenaltyTier :=
  if drop_rate.gtQ 5 then ⟨"₹5-10 lakh (Severe violation)", 4⟩
  else if drop_rate.gtQ 4 then ⟨"₹2-5 lakh (High violation)", 3⟩
  else if drop_rate.gtQ 3 then ⟨"₹1-2 lakh (Medium violation)", 2⟩
  else ⟨"₹50,000-1 lakh (Base violation)", 1⟩

/-- The aggregate drop rate of Method 1 (call_data_service.py:115-117):
`drop_rate = (total_drops / total_calls) * 100 if total_calls > 0 else 0`. -/
def aggDropRate (drops tots : List PFloat) : PFloat :=
  if (psum tots).gtQ 0 then ((psum drops).div (psum tots)).mulQ 100 else .val 0

/-- Method 1 of `_analyze_call_drops` (call_data_service.py:113-155):
aggregate drop-rate detector.  Guarded on both count columns; in the
`> 2.0` branch the `sample_records` expression additionally selects the
`customer_id` and `service_area` columns, raising `KeyError` when either
is absent (the guard does not check them). -/
def method1 (df : DataFrame) : Except String Violations :=
  match df.call_drop_cnt_d, df.tot_call_cnt_d with
  | some drops, some tots =>
    let total_drops := psum drops
    let drop_rate := aggDropRate drops tots
    if drop_rate.gtQ 2 then
      match df.customer_id, df.service_area with
      | some _, some _ =>
          .ok ⟨[⟨"TRAI Call Drop Rate Violation", total_drops,
                 some (get_drop_penalty_tier drop_rate).penalty⟩], [], []⟩
      | none, _ => .error "KeyError: customer_id"
      | _, none => .error "KeyError: service_area"
    else if drop_rate.gtQ (Rat.divInt 3 2) then
      .ok ⟨[], [⟨"High Call Drop Rate (Warning)", total_drops,
                 some "₹50,000 - Warning level"⟩], []⟩
    else if drop_rate.gtQ 1 then
      .ok ⟨[], [], [⟨"Moderate Call Drop Rate", total_drops,
                     some "No penalty - monitoring recommended"⟩]⟩
    else .ok ⟨[], [], []⟩
  | _, _ => .ok ⟨[], [], []⟩

/-- Distinct group keys of `df.groupby('service_area')` in pandas order:
null keys dropped, remaining keys deduplicated and sorted ascending. -/
def areaKeys (areas : List (Option String)) : List String :=
  ((areas.filterMap id).dedup).insertionSort (fun a b => a < b)

/-- Per-area aggregation of Method 2: for one key, the summed drop and
total counts over the rows carrying that key, and the resulting rate
`(drops / totals) * 100`. -/
def areaStat (areas : List (Option String)) (drops tots : List PFloat)
    (key : String) : PFloat :=
  let rows := (areas.zip (drops.zip tots)).filter (fun p => p.1 = some key)
  let d := psum (rows.map (fun p => p.2.1))
  let t := psum (rows.map (fun p => p.2.2))
  (d.div t).mulQ 100

/-- Method 2 of `_analyze_call_drops` (call_data_service.py:158-195):
per-service-area drop-rate detector.  Guarded on `service_area` and
`call_drop_cnt_d` only; the `agg` dictionary then reads
`tot_call_cnt_d` and `customer_id`, raising `KeyError` when absent. -/
def method2 (df : DataFrame) : Except String Violations :=
  match df.service_area, df.call_drop_cnt_d with
  | some areas, some drops =>
    match df.tot_call_cnt_d with
    | none => .error "KeyError: tot_call_cnt_d"
    | some tots =>
      match df.customer_id with
      | none => .error "KeyError: customer_id"
      | some _ =>
        let rates := (areaKeys areas).map (fun k => areaStat areas drops tots k)
        let violRates := rates.filter (fun r => r.gtQ 2)
        let warnRates := rates.filter (fun r => r.gtQ (Rat.divInt 3 2) && r.leQ 2)
        let vHigh : List Violation :=
          match violRates with
          | [] => []
          | worst :: _ =>
              [⟨"TRAI Service Area Drop Rate Violation", .val (violRates.length : ℚ),
                some (get_drop_penalty_tier worst).penalty⟩]
        let vMed : List Violation :=
          if warnRates.isEmpty then []
          else [⟨"Service Area Drop Rate Warning", .val (warnRates.length : ℚ),
                 some "₹50,000 - Monitoring required"⟩]
        .ok ⟨vHigh, vMed, []⟩
  | _, _ => .ok ⟨[], [], []⟩

/-- Method 3 of `_analyze_call_drops` (call_data_service.py:198-211):
per-customer drop rates.  Writes the derived `customer_drop_rate`
column onto the dataframe (in-place mutation in the source) before the
emptiness test; the `sample_customers` selection then reads
`customer_id` and `service_area`, raising `KeyError` when absent.  The
mutation survives such an exception, hence the dataframe is returned
alongside the `Except`. -/
def method3 (df : DataFrame) : Except String Violations × DataFrame :=
  match df.call_drop_cnt_d, df.tot_call_cnt_d with
  | some drops, some tots =>
    let rates := (drops.zip tots).map (fun p => (p.1.div p.2).mulQ 100)
    let df' := { df with customer_drop_rate := some rates }
    let highCnt := (rates.filter (fun r => r.gtQ 20)).length
    if highCnt = 0 then (.ok ⟨[], [], []⟩, df')
    else
      match df.customer_id, df.service_area with
      | some _, some _ =>
          (.ok ⟨[], [⟨"Individual Customer Drop Issues", .val (highCnt : ℚ),
                      some "Service quality investigation required"⟩], []⟩, df')
      | none, _ => (.error "KeyError: customer_id", df')
      | _, none => (.error "KeyError: service_area", df')
  | _, _ => (.ok ⟨[], [], []⟩, df)

/-- The duration-based drop rate of Method 4 (call_data_service.py:216-217):
`(len(potential_drops) / len(df)) * 100 if len(df) > 0 else 0` where
potential drops are calls shorter than 3 seconds. -/
def durationDropRate (df : DataFrame) : PFloat :=
  match df.call_duration with
  | some durs =>
      let potential := (durs.filter (fun d => d.ltQ 3)).length
      if 0 < df.nrows then
        ((PFloat.val (potential : ℚ)).div (.val (df.nrows : ℚ))).mulQ 100
      else .val 0
  | none => .val 0

/-- Method 4 of `_analyze_call_drops` (call_data_service.py:214-227):
duration-based drop proxy.  Guarded only on the presence of
`call_duration` — it runs regardless of the explicit drop columns. -/
def method4 (df : DataFrame) : Violations :=
  match df.call_duration with
  | some durs =>
      let potential := (durs.filter (fun d => d.ltQ 3)).length
      let drop_rate := durationDropRate df
      if drop_rate.gtQ 2 then
        ⟨[⟨"Duration-based Call Drop Detection", .val (potential : ℚ),
           some (get_drop_penalty_tier drop_rate).penalty⟩], [], []⟩
      else ⟨[], [], []⟩
  | none => ⟨[], [], []⟩

/-- `_analyze_call_drops` (call_data_service.py:108-229): the four drop
methods in source order.  A raised `KeyError` propagates out of the
function (no local handler), but any dataframe mutation already
performed persists. -/
def analyze_call_drops (df : DataFrame) : Except String Violations × DataFrame :=
  match method1 df with
  | .error e => (.error e, df)
  | .ok v1 =>
    match method2 df with
    | .error e => (.error e, df)
    | .ok v2 =>
      match method3 df with
      | (.error e, df') => (.error e, df')
      | (.ok v3, df') =>
          (.ok (((v1.append v2).append v3).append (method4 df')), df')

/-- Substring test on character lists (Python's `"Drop" in s`). -/
def containsSub (needle : List Char) : List Char → Bool
  | [] => needle.isEmpty
  | c :: rest => needle.isPrefixOf (c :: rest) || containsSub needle rest

/-- Python `"Drop" in s` on the type string of a finding. -/
def containsDrop (s : String) : Bool := containsSub "Drop".data s.data

/-- Excessive-duration detector (call_data_service.py:271-283): calls
longer than 3600 seconds.  Its `sample_records` takes whole rows, so no
column selection can raise. -/
def durationDetector (df : DataFrame) : Violations :=
  match df.call_duration with
  | some durs =>
      let longCnt := (durs.filter (fun d => d.gtQ 3600)).length
      if longCnt = 0 then ⟨[], [], []⟩
      else ⟨[⟨"Excessive Call Duration", .val (longCnt : ℚ),
              some "₹1-2 lakh for service quality issues"⟩], [], []⟩
  | none => ⟨[], [], []⟩

/-- High-frequency-caller detector (call_data_service.py:286-298):
distinct non-null caller numbers with more than 100 calls
(`value_counts` counts non-null occurrences). -/
def freqDetector (df : DataFrame) : Violations :=
  match df.caller_number with
  | some callers =>
      let vals := callers.filterMap id
      let highCnt := (vals.dedup.filter (fun v => 100 < vals.count v)).length
      if highCnt = 0 then ⟨[], [], []⟩
      else ⟨[], [⟨"High Frequency Calling", .val (highCnt : ℚ), none⟩], []⟩
  | none => ⟨[], [], []⟩

/-- Off-hours detector (call_data_service.py:301-316).  The timestamp
conversion sits in its own `try`/`except: pass`: an unparseable column
skips the detector and leaves the dataframe untouched.  On success the
source converts `call_time` in place and writes the derived `hour`
column; hours before 8 or after 22 are off-hours (null hours compare
false). -/
def timeDetector (df : DataFrame) : Violations × DataFrame :=
  match df.call_time with
  | some tc =>
    if tc.parses then
      let df' := { df with call_time := some { tc with converted := true },
                           hour := some tc.hours }
      let offCnt := (tc.hours.filter (fun h? =>
        match h? with
        | some h => decide (h < 8) || decide (22 < h)
        | none => false)).length
      if offCnt = 0 then (⟨[], [], []⟩, df')
      else (⟨[], [], [⟨"Off-Hours Calling", .val (offCnt : ℚ), none⟩]⟩, df')
    else (⟨[], [], []⟩, df)
  | none => (⟨[], [], []⟩, df)

/-- Null cells of one optional numeric column. -/
def nullsP (c : Option (List PFloat)) : ℕ :=
  match c with
  | some l => (l.filter (fun x => x = PFloat.nan)).length
  | none => 0

/-- Null cells of one optional string column. -/
def nullsS (c : Option (List (Option String))) : ℕ :=
  match c with
  | some l => (l.filter (fun x => x.isNone)).length
  | none => 0

/-- Null cells of one optional hour column. -/
def nullsH (c : Option (List (Option ℕ))) : ℕ :=
  match c with
  | some l => (l.filter (fun x => x.isNone)).length
  | none => 0

/-- `df.isnull().sum().sum()` over the modelled columns, including the
derived ones the scan may have written by the time it runs the
missing-data detector. -/
def dfNullCount (df : DataFrame) : ℕ :=
  nullsS df.customer_id + nullsS df.service_area + nullsS df.caller_number +
  nullsP df.tot_call_cnt_d + nullsP df.call_drop_cnt_d + nullsP df.call_duration +
  (match df.call_time with
   | some tc => (tc.hours.filter (fun x => x.isNone)).length
   | none => 0) +
  nullsP df.customer_drop_rate + nullsH df.hour

/-- Missing-data detector (call_data_service.py:319-326). -/
def missingDetector (df : DataFrame) : Violations :=
  let md := dfNullCount df
  if md = 0 then ⟨[], [], []⟩
  else ⟨[], [], [⟨"Data Quality Issues", .val (md : ℚ), none⟩]⟩

/-- The derived summary (call_data_service.py:328-351): tier counts, the
clamped compliance score, the penalty estimate from fixed per-finding
averages, and the drop-marker flag over the high and medium tiers.  The
constant informational fields (`regulatory_authority`, …) are not
modelled. -/
structure Summary where
  total_records_analyzed : ℕ
  high_risk_count : ℕ
  medium_risk_count : ℕ
  low_risk_count : ℕ
  trai_compliance_score : ℤ
  estimated_penalty_inr : ℕ
  call_drop_violation_detected : Bool
deriving DecidableEq

/-- Summary construction, extracted verbatim from
call_data_service.py:328-351. -/
def mkSummary (nrecords : ℕ) (v : Violations) : Summary :=
  let h := v.high.length
  let m := v.medium.length
  let l := v.low.length
  { total_records_analyzed := nrecords
    high_risk_count := h
    medium_risk_count := m
    low_risk_count := l
    trai_compliance_score := max 0 (100 - ((h : ℤ) * 40 + (m : ℤ) * 20 + (l : ℤ) * 10))
    estimated_penalty_inr := h * 300000 + m * 125000 + l * 50000
    call_drop_violation_detected :=
      (v.high ++ v.medium).any (fun x => containsDrop x.vtype) }

/-- The discriminated result of `analyze_compliance_violations`:
`{"success": True, "violations": …}` (with the summary inside) or
`{"success": False, "error": …}`. -/
inductive AnalyzeResult where
  | success (violations : Violations) (summary : Summary) : AnalyzeResult
  | failure (error : String) : AnalyzeResult
deriving DecidableEq

/-- `analyze_compliance_violations` (call_data_service.py:254-356).  The
whole detector battery sits inside ONE `try`; the only inner handler is
the off-hours detector's.  An exception anywhere else (modelled: the
`KeyError`s of `_analyze_call_drops`) reaches the outer handler, which
converts it to a failure result — discarding every finding collected so
far.  Dataframe mutations performed before the exception persist. -/
def analyze_compliance_violations (df : DataFrame) : AnalyzeResult × DataFrame :=
  match analyze_call_drops df with
  | (.error e, df') => (.failure ("Compliance analysis error: " ++ e), df')
  | (.ok v0, df1) =>
    let v1 := v0.append (durationDetector df1)
    let v2 := v1.append (freqDetector df1)
    let p := timeDetector df1
    let v3 := v2.append p.1
    let v4 := v3.append (missingDetector p.2)
    (.success v4 (mkSummary p.2.nrows v4), p.2)

end CallDataService

/-! ### Chunking and the retrieval store (`rag_service.py`) -/

namespace RAGService

/-- Python `c in '.!?\n'` (rag_service.py:64). -/
def sentenceEnd (c : Char) : Bool :=
  c = '.' || c = '!' || c = '?' || c = '\n'

/-- Characters removed by Python `str.strip()` (the embedding covers the
whitespace the repository's text can contain). -/
def isSpaceChar (c : Char) : Bool :=
  c = ' ' || c = '\t' || c = '\n' || c = '\r'

/-- Python `str.strip()` on a character list. -/
def stripChars (l : List Char) : List Char :=
  ((l.dropWhile isSpaceChar).reverse.dropWhile isSpaceChar).reverse

/-- The backward sentence-boundary search (rag_service.py:63-66):
`for i in range(e0, stop, -1): if text[i-1] in '.!?\n': end = i; break`.
Walking `i` down from `e0` while `i > stop` and testing `text[i-1]` is
the same as scanning the window `text[stop..e0-1]` from its far end:
the first terminal found at window offset `j` (from the end) sits at
position `i = e0 - j`.  (The caller only ever passes `e0 < text.length`;
clamping keeps the out-of-range indices as misses regardless.) -/
def searchBack (text : List Char) (stop e0 : ℕ) : Option ℕ :=
  let t := min e0 text.length
  (((text.drop stop).take (t - stop)).reverse.findIdx? sentenceEnd).map
    (fun j => t - j)

/-- One iteration of the `while` loop of `chunk_text`
(rag_service.py:57-76) at position `start`: the produced chunk (if its
stripped text is non-empty) and the next `start` (`end - overlap`;
clamped at 0 where Python would go negative, which cannot happen for
the shipped 1000/200 configuration). -/
def chunkStep (chunk_size overlap : ℕ) (text : List Char) (start : ℕ) :
    Option (List Char) × ℕ :=
  let e0 := start + chunk_size
  let e :=
    if e0 < text.length then
      match searchBack text (max (start + chunk_size - overlap) start) e0 with
      | some i => i
      | none => e0
    else e0
  let chunk := stripChars ((text.drop start).take (e - start))
  ((if chunk.isEmpty then none else some chunk), e - overlap)

/-- The `while start < len(text)` loop of `chunk_text`, with explicit
fuel: `none` means the fuel ran out before the loop finished — so a
loop that finishes for NO amount of fuel never terminates in Python. -/
def chunkLoop (chunk_size overlap : ℕ) (text : List Char) :
    ℕ → ℕ → List (List Char) → Option (List (List Char))
  | 0, _, _ => none
  | fuel + 1, start, acc =>
    if start < text.length then
      match chunkStep chunk_size overlap text start with
      | (some ch, start') => chunkLoop chunk_size overlap text fuel start' (acc ++ [ch])
      | (none, start') => chunkLoop chunk_size overlap text fuel start' acc
    else some acc

/-- `chunk_text` (rag_service.py:49-78): a text no longer than
`chunk_size` is returned whole (untrimmed) as a single chunk; longer
texts go through the overlap loop. -/
def chunk_text (chunk_size overlap : ℕ) (text : List Char) (fuel : ℕ) :
    Option (List (List Char)) :=
  if text.length ≤ chunk_size then some [text] else chunkLoop chunk_size overlap text fuel 0 []

/-- `chunk_text` at the constructor configuration
(`chunk_size = 1000`, `overlap = 200`, rag_service.py:17-18), with fuel
ample for that configuration (each iteration advances `start` by at
least 601). -/
def chunkTextDefault (text : List Char) : Option (List (List Char)) :=
  chunk_text 1000 200 text (text.length + 1)

/-- One stored chunk of the ChromaDB collection
(rag_service.py:96-112): id `f"{document_name}_chunk_{i}"`, the
embedding vector, the chunk text and the metadata fields. -/
structure ChunkEntry where
  id : String
  embedding : List ℚ
  text : List Char
  document_name : String
  chunk_index : ℕ
  chunk_size : ℕ
deriving DecidableEq

/-- The retrieval store: the single ChromaDB collection. -/
structure RAGState where
  store : List ChunkEntry
deriving DecidableEq

/-- Result dictionary of `add_document`. -/
inductive AddResult where
  | success (chunks_created : ℕ) (document_name : String) : AddResult
  | failure (error : String) : AddResult
deriving DecidableEq

/-- `clear_documents` (rag_service.py:145-153): deletes every stored id. -/
def clear_documents (_st : RAGState) : RAGState := ⟨[]⟩

/-- `add_document` (rag_service.py:80-121).  Clears the whole store
FIRST, then chunks, then calls the external embedding capability
(`embed`, which may fail like any transport call), then inserts the new
entries.  Every failure path is caught and returned as a failure
result — with the store already cleared.  (The fuel-exhaustion case is
an artifact of the fuel encoding; it cannot occur at the shipped
1000/200 configuration.) -/
def add_document (embed : List (List Char) → Except String (List (List ℚ)))
    (st : RAGState) (document_text : List Char) (document_name : String) :
    AddResult × RAGState :=
  let st1 := clear_documents st
  match chunkTextDefault document_text with
  | none => (.failure "chunking loop did not finish", st1)
  | some chunks =>
    if chunks.isEmpty then (.failure "No chunks created from document", st1)
    else
      match embed chunks with
      | .error e => (.failure e, st1)
      | .ok embs =>
        let entries := (chunks.zip embs).enum.map (fun p =>
          { id := document_name ++ "_chunk_" ++ toString p.1
            embedding := p.2.2
            text := p.2.1
            document_name := document_name
            chunk_index := p.1
            chunk_size := p.2.1.length : ChunkEntry })
        (.success chunks.length document_name, ⟨entries⟩)

end RAGService

/-! ### Direct-context strategy (`document_service.py`) -/

namespace DocumentService

/-- Python `str.strip()` on a string. -/
def stripStr (s : String) : String :=
  (RAGService.stripChars s.data).asString

/-- The documented-summary prompt of `_generate_summary`
(document_service.py:51-58), operating on the first
`3 * max_summary_length` characters of the document. -/
def summaryPrompt (max_summary_length : ℕ) (text : String) : String :=
  "Please provide a comprehensive but concise summary of the following document. \n" ++
  "Focus on key legal points, important clauses, obligations, rights, and any compliance-related information.\n" ++
  "Keep the summary under " ++ toString max_summary_length ++
  " characters while retaining all critical information.\n\nDocument:\n" ++
  (text.take (max_summary_length * 3)) ++ "  \n\nSummary:"

/-- `_generate_summary` (document_service.py:48-66): one call to the
external generation capability; on any failure it falls back to a
truncated prefix with a marker — it never raises. -/
def generate_summary (gen : String → Except String String)
    (max_summary_length max_context_length : ℕ) (text : String) : String :=
  match gen (summaryPrompt max_summary_length text) with
  | .ok result => stripStr result
  | .error _ => text.take max_context_length ++ "\n\n[Document truncated due to length...]"

/-- The mutable state of `DocumentService` (document_service.py:19-28). -/
structure DocState where
  max_context_length : ℕ
  max_summary_length : ℕ
  document_text : Option String
  document_name : Option String
  document_summary : Option String
deriving DecidableEq

/-- `get_context_for_query` (document_service.py:68-82), returning the
context string, the updated state, and how many times the external
generation capability was invoked during the call.  `if not
self._document_text` is falsy for both `None` and the empty string;
the `query` argument is ignored in this strategy by design. -/
def get_context_for_query (gen : String → Except String String)
    (st : DocState) (_query : String) : String × DocState × ℕ :=
  match st.document_text with
  | none => ("", st, 0)
  | some text =>
    if text = "" then ("", st, 0)
    else if text.length ≤ st.max_context_length then (text, st, 0)
    else
      match st.document_summary with
      | some s => (s, st, 0)
      | none =>
        let s := generate_summary gen st.max_summary_length st.max_context_length text
        (s, { st with document_summary := some s }, 1)

end DocumentService


/-! ### Claims -/

open CallDataService RAGService DocumentService

/-- C1: for a dataset with total-call and drop-count columns whose
aggregate drop rate is exactly 2.0%, the aggregate drop-rate detector
produces no high-tier finding — the `> 2.0` test is strict — and the
rate falls into the 1.5–2.0% medium tier, a "High Call Drop Rate
(Warning)" finding with the fixed warning penalty. -/
theorem agg_rate_exactly_two_is_medium_tier (df : DataFrame)
    (drops tots : List PFloat)
    (hd : df.call_drop_cnt_d = some drops) (ht : df.tot_call_cnt_d = some tots)
    (hr : aggDropRate drops tots = .val 2) :
    method1 df = .ok ⟨[], [⟨"High Call Drop Rate (Warning)", psum drops,
                            some "₹50,000 - Warning level"⟩], []⟩ := by
  unfold method1
  rw [hd, ht]
  simp only [hr]
  norm_num [PFloat.gtQ, qLt]
  decide

/-- C1 witness: totals `[1000, 1000]`, drops `[30, 10]`, rate exactly
`40/2000 = 2%`. -/
theorem agg_rate_exactly_two_is_medium_tier_witness :
    aggDropRate [.val 30, .val 10] [.val 1000, .val 1000] = .val 2 ∧
    method1 ⟨2, none, none, none, some [.val 1000, .val 1000],
             some [.val 30, .val 10], none, none, none, none⟩ =
      .ok ⟨[], [⟨"High Call Drop Rate (Warning)", psum [.val 30, .val 10],
                 some "₹50,000 - Warning level"⟩], []⟩ :=
  ⟨by decide,
   agg_rate_exactly_two_is_medium_tier _ [.val 30, .val 10] [.val 1000, .val 1000]
     rfl rfl (by decide)⟩

/-- C3: the derived summary satisfies
`compliance_score = max(0, 100 − 40·h − 20·m − 10·l)` and
`estimated_penalty_total = 300000·h + 125000·m + 50000·l` for every
finding set; in particular zero findings score 100, three high findings
score 0 (clamped), and one high plus two medium findings estimate a
550000 penalty. -/
theorem summary_score_and_penalty_formula (n : ℕ) (v : Violations) :
    ((mkSummary n v).trai_compliance_score =
        max 0 (100 - (40 * (v.high.length : ℤ) + 20 * (v.medium.length : ℤ) +
                      10 * (v.low.length : ℤ))) ∧
      (mkSummary n v).estimated_penalty_inr =
        300000 * v.high.length + 125000 * v.medium.length + 50000 * v.low.length) ∧
    (mkSummary n ⟨[], [], []⟩).trai_compliance_score = 100 ∧
    (∀ a b c : Violation,
      (mkSummary n ⟨[a, b, c], [], []⟩).trai_compliance_score = 0) ∧
    (∀ a b c : Violation,
      (mkSummary n ⟨[a], [b, c], []⟩).estimated_penalty_inr = 550000) := by
  refine ⟨⟨?_, ?_⟩, ?_, ?_, ?_⟩
  · show max 0 (100 - ((v.high.length : ℤ) * 40 + (v.medium.length : ℤ) * 20 +
        (v.low.length : ℤ) * 10)) = _
    congr 1
    ring
  · show v.high.length * 300000 + v.medium.length * 125000 + v.low.length * 50000 = _
    ring
  · show max 0 (100 - ((0 : ℤ) * 40 + (0 : ℤ) * 20 + (0 : ℤ) * 10)) = 100
    decide
  · intro a b c
    show max 0 (100 - ((3 : ℤ) * 40 + (0 : ℤ) * 20 + (0 : ℤ) * 10)) = 0
    decide
  · intro a b c
    show 1 * 300000 + 2 * 125000 + 0 * 50000 = 550000
    decide

/-- C9: when the total-call counts sum to zero the aggregate drop rate
is computed as 0 — the guard `if total_calls > 0` keeps the division
unreached — and Method 1 returns no finding and no fault. -/
theorem zero_totals_give_zero_drop_rate (drops tots : List PFloat)
    (h : psum tots = .val 0) :
    aggDropRate drops tots = .val 0 ∧
    ∀ df : DataFrame, df.call_drop_cnt_d = some drops →
      df.tot_call_cnt_d = some tots → method1 df = .ok ⟨[], [], []⟩ := by
  have hrate : aggDropRate drops tots = .val 0 := by
    unfold aggDropRate
    rw [h]
    norm_num [PFloat.gtQ, qLt]
  refine ⟨hrate, ?_⟩
  intro df hd ht
  unfold method1
  rw [hd, ht]
  simp only [hrate]
  norm_num [PFloat.gtQ, qLt]

/-- C9 witness: two records with zero total calls. -/
theorem zero_totals_give_zero_drop_rate_witness :
    aggDropRate [.val 0, .val 3] [.val 0, .val 0] = .val 0 ∧
    method1 ⟨2, none, none, none, some [.val 0, .val 0],
             some [.val 0, .val 3], none, none, none, none⟩ = .ok ⟨[], [], []⟩ :=
  ⟨(zero_totals_give_zero_drop_rate [.val 0, .val 3] [.val 0, .val 0] (by decide)).1,
   (zero_totals_give_zero_drop_rate [.val 0, .val 3] [.val 0, .val 0] (by decide)).2
     _ rfl rfl⟩

/-- The C2 counterexample dataset: drop-count columns present with a
10% aggregate drop rate, `call_duration` present with one call over an
hour — but no `customer_id` column, so Method 1's `sample_records`
selection raises `KeyError` inside the scan's single `try`. -/
def c2df : DataFrame :=
  ⟨1, none, none, none, some [.val 100], some [.val 10],
   some [.val 4000], none, none, none⟩

/-- C2 counterexample: the failure of one detector is NOT contained to
that detector.  On `c2df` the excessive-duration detector alone would
report a high-tier finding, yet the whole scan collapses to a failure
result carrying no findings at all, because the aggregate drop detector
raised and the only handler is the one around the entire battery. -/
theorem scan_aborts_on_single_detector_failure :
    analyze_compliance_violations c2df =
      (.failure "Compliance analysis error: KeyError: customer_id", c2df) ∧
    durationDetector c2df =
      ⟨[⟨"Excessive Call Duration", .val 1,
         some "₹1-2 lakh for service quality issues"⟩], [], []⟩ := by
  constructor
  · decide
  · decide

/-- C2 amended: only the off-hours detector's timestamp parse has a
local handler.  An exception anywhere in the drop analysis reaches the
single outer handler of `analyze_compliance_violations`, which turns
the WHOLE scan into a failure result with no findings (it never raises
to the caller); conversely, whenever the drop analysis does not raise,
the remaining detectors always complete and the scan succeeds. -/
theorem scan_fails_exactly_when_drop_analysis_raises (df : DataFrame) :
    (∀ e d, analyze_call_drops df = (.error e, d) →
      analyze_compliance_violations df =
        (.failure ("Compliance analysis error: " ++ e), d)) ∧
    (∀ v d, analyze_call_drops df = (.ok v, d) →
      ∃ vs s d', analyze_compliance_violations df = (.success vs s, d')) := by
  constructor
  · intro e d h
    unfold analyze_compliance_violations
    rw [h]
  · intro v d h
    unfold analyze_compliance_violations
    rw [h]
    exact ⟨_, _, _, rfl⟩

/-- C2 amended witness: on `c2df` the drop analysis raises
`KeyError: customer_id` and the scan returns the failure result. -/
theorem scan_fails_exactly_when_drop_analysis_raises_witness :
    analyze_compliance_violations c2df =
      (.failure "Compliance analysis error: KeyError: customer_id", c2df) :=
  (scan_fails_exactly_when_drop_analysis_raises c2df).1
    "KeyError: customer_id" c2df (by decide)

/-- The C4 counterexample dataset: one record, both drop-count columns
present, rate 0% (no finding of any kind). -/
def c4df : DataFrame :=
  ⟨1, none, none, none, some [.val 100], some [.val 0], none, none, none, none⟩

/-- C4 counterexample: the scan is not side-effect-free.  Even on a
dataset that triggers no finding at all, `analyze_compliance_violations`
returns the input dataset CHANGED: Method 3 wrote the derived
`customer_drop_rate` column onto it. -/
theorem scan_mutates_input_dataset :
    (analyze_compliance_violations c4df).2 ≠ c4df ∧
    (analyze_compliance_violations c4df).2.customer_drop_rate = some [.val 0] := by
  constructor
  · decide
  · decide

/-- `timeDetector` never touches the `customer_drop_rate` column. -/
theorem timeDetector_preserves_cdr (df : DataFrame) :
    ((timeDetector df).2).customer_drop_rate = df.customer_drop_rate := by
  unfold timeDetector
  cases h : df.call_time with
  | none => rfl
  | some tc =>
    by_cases hp : tc.parses
    · simp [hp]
      split <;> rfl
    · simp [hp]

/-- Method 3 always writes the `customer_drop_rate` column when both
count columns are present, whatever else happens. -/
theorem method3_writes_cdr (df : DataFrame) (drops tots : List PFloat)
    (hd : df.call_drop_cnt_d = some drops) (ht : df.tot_call_cnt_d = some tots) :
    ((method3 df).2).customer_drop_rate =
      some ((drops.zip tots).map (fun p => (p.1.div p.2).mulQ 100)) := by
  unfold method3
  rw [hd, ht]
  simp only
  split
  · rfl
  · split <;> rfl

/-- C4 amended: the scan of a dataset carrying both drop-count columns
is never free of side effects on the input: whenever it completes
successfully, the dataset it hands back has the derived per-record
`customer_drop_rate` column written on it (the source writes it in
place on the caller's dataframe). -/
theorem successful_scan_leaves_cdr_column (df : DataFrame)
    (drops tots : List PFloat)
    (hd : df.call_drop_cnt_d = some drops) (ht : df.tot_call_cnt_d = some tots)
    (vs : Violations) (s : Summary) (d : DataFrame)
    (h : analyze_compliance_violations df = (.success vs s, d)) :
    d.customer_drop_rate =
      some ((drops.zip tots).map (fun p => (p.1.div p.2).mulQ 100)) := by
  unfold analyze_compliance_violations at h
  cases hacd : analyze_call_drops df with
  | mk r d1 =>
    cases r with
    | error e => rw [hacd] at h; exact absurd (congrArg Prod.fst h) (by simp)
    | ok v0 =>
      rw [hacd] at h
      simp only at h
      have hd1 : d = (timeDetector d1).2 := (congrArg Prod.snd h).symm
      have hcd1 : d1.customer_drop_rate =
          some ((drops.zip tots).map (fun p => (p.1.div p.2).mulQ 100)) := by
        unfold analyze_call_drops at hacd
        cases h1 : method1 df with
        | error e => rw [h1] at hacd; exact absurd hacd (by simp)
        | ok v1 =>
          rw [h1] at hacd
          cases h2 : method2 df with
          | error e => rw [h2] at hacd; simp at hacd
          | ok v2 =>
            rw [h2] at hacd
            cases h3 : method3 df with
            | mk r3 d3 =>
              cases r3 with
              | error e => rw [h3] at hacd; simp at hacd
              | ok v3 =>
                rw [h3] at hacd
                simp at hacd
                have : d1 = d3 := hacd.2.symm
                subst this
                have := method3_writes_cdr df drops tots hd ht
                rw [h3] at this
                exact this
      rw [hd1, timeDetector_preserves_cdr, hcd1]

/-- C4 amended witness: on `c4df` the scan succeeds and the returned
dataset carries the derived column. -/
theorem successful_scan_leaves_cdr_column_witness :
    ((⟨1, none, none, none, some [.val 100], some [.val 0], none, none,
       some [.val 0], none⟩ : DataFrame)).customer_drop_rate = some [.val 0] :=
  successful_scan_leaves_cdr_column c4df [.val 0] [.val 100] rfl rfl
    ⟨[], [], []⟩ ⟨1, 0, 0, 0, 100, 0, false⟩
    ⟨1, none, none, none, some [.val 100], some [.val 0], none, none,
     some [.val 0], none⟩
    (by decide)

/-- The C5 failing input: 1001 sentence-terminator-free characters, one
more than `chunk_size`. -/
def a1001 : List Char := List.replicate 1001 'a'

set_option maxRecDepth 10000 in
set_option maxHeartbeats 2000000 in
/-- With `chunk_size = overlap = 1000` the loop body at `start = 0` cuts
at `end = 1000` and then sets `start = end - overlap = 0` again: a fixed
point. -/
theorem chunkStep_fixed_point :
    chunkStep 1000 1000 a1001 0 = (some (List.replicate 1000 'a'), 0) := by
  decide

set_option maxRecDepth 10000 in
/-- The loop therefore never finishes, whatever the fuel. -/
theorem chunkLoop_stalls (fuel : ℕ) :
    ∀ acc, chunkLoop 1000 1000 a1001 fuel 0 acc = none := by
  induction fuel with
  | zero => intro acc; rfl
  | succ n ih =>
    intro acc
    unfold chunkLoop
    rw [if_pos (by decide : (0:ℕ) < a1001.length)]
    rw [chunkStep_fixed_point]
    exact ih _

set_option maxRecDepth 10000 in
/-- C5: with `overlap = chunk_size` (= 1000) the chunking loop makes no
forward progress on a non-empty text free of sentence terminators:
`start` stays at 0 forever, so `chunk_text` finishes for NO amount of
fuel — the Python loop never terminates, contradicting the claimed
guard against a zero advance. -/
theorem chunking_diverges_when_overlap_equals_chunk_size :
    a1001 ≠ [] ∧ ∀ fuel : ℕ, chunk_text 1000 1000 a1001 fuel = none := by
  constructor
  · decide
  · intro fuel
    unfold chunk_text
    rw [if_neg (by decide : ¬ (a1001.length ≤ 1000))]
    exact chunkLoop_stalls fuel []

/-- C6: for a loaded document longer than `max_context_length`, two
successive `get_context_for_query` calls invoke the external generation
capability at most once in total; the second call returns the identical
cached string and leaves the state unchanged (so every later call
behaves like the second). -/
theorem direct_context_summary_memoized (gen : String → Except String String)
    (st : DocState) (q1 q2 text : String)
    (h : st.document_text = some text)
    (hl : st.max_context_length < text.length) :
    (get_context_for_query gen st q1).2.2 +
      (get_context_for_query gen (get_context_for_query gen st q1).2.1 q2).2.2 ≤ 1 ∧
    (get_context_for_query gen (get_context_for_query gen st q1).2.1 q2).1 =
      (get_context_for_query gen st q1).1 ∧
    (get_context_for_query gen (get_context_for_query gen st q1).2.1 q2).2.1 =
      (get_context_for_query gen st q1).2.1 := by
  have hne : text ≠ "" := by
    intro he
    rw [he] at hl
    simp [String.length] at hl
  have hgt : ¬ (text.length ≤ st.max_context_length) := by omega
  cases hsum : st.document_summary with
  | some s =>
    unfold get_context_for_query
    rw [h, hsum]
    simp [hne, hgt, h, hsum]
  | none =>
    unfold get_context_for_query
    rw [h, hsum]
    simp [hne, hgt, h, hsum]

/-- C6 witness: `max_context_length = 3`, a six-character document, an
always-succeeding generator. -/
theorem direct_context_summary_memoized_witness :
    ((get_context_for_query (fun _ => .ok "SUM")
        ⟨3, 2, some "abcdef", some "d", none⟩ "q").2.2 +
      (get_context_for_query (fun _ => .ok "SUM")
        (get_context_for_query (fun _ => .ok "SUM")
          ⟨3, 2, some "abcdef", some "d", none⟩ "q").2.1 "q2").2.2 ≤ 1) ∧
    (get_context_for_query (fun _ => .ok "SUM")
      (get_context_for_query (fun _ => .ok "SUM")
        ⟨3, 2, some "abcdef", some "d", none⟩ "q").2.1 "q2").1 =
      (get_context_for_query (fun _ => .ok "SUM")
        ⟨3, 2, some "abcdef", some "d", none⟩ "q").1 ∧
    (get_context_for_query (fun _ => .ok "SUM")
      (get_context_for_query (fun _ => .ok "SUM")
        ⟨3, 2, some "abcdef", some "d", none⟩ "q").2.1 "q2").2.1 =
      (get_context_for_query (fun _ => .ok "SUM")
        ⟨3, 2, some "abcdef", some "d", none⟩ "q").2.1 :=
  direct_context_summary_memoized (fun _ => .ok "SUM")
    ⟨3, 2, some "abcdef", some "d", none⟩ "q" "q2" "abcdef" rfl (by decide)

/-- C7 counterexample: a whitespace-only input of length ≤ `chunk_size`
is NOT chunked to nothing — `chunk_text` returns it verbatim as one
(untrimmed, whitespace) chunk, and `add_document` therefore does not
fail with the no-chunks error: it proceeds and succeeds. -/
theorem short_whitespace_input_yields_one_untrimmed_chunk :
    chunk_text 1000 200 [' '] 1 = some [[' ']] ∧
    (add_document (fun cs => .ok (cs.map (fun _ => []))) ⟨[]⟩ [' '] "doc").1 =
      .success 1 "doc" := by
  constructor
  · decide
  · decide

/-- C7 amended: trimming and empty-chunk discarding apply only on the
long-text path.  A text of length ≤ `chunk_size` (even empty or
whitespace-only) is returned whole as a single untrimmed chunk and
`add_document` proceeds; `add_document` fails with the no-chunks error
exactly when chunking yields the empty chunk list (which a
whitespace-only text longer than `chunk_size` does produce), and then
the store is left empty. -/
theorem chunk_trim_applies_only_beyond_chunk_size :
    (∀ (text : List Char) (fuel : ℕ), text.length ≤ 1000 →
       chunk_text 1000 200 text fuel = some [text]) ∧
    (∀ (embed : List (List Char) → Except String (List (List ℚ)))
       (st : RAGState) (text : List Char) (name : String),
       chunkTextDefault text = some [] →
       add_document embed st text name =
         (.failure "No chunks created from document", ⟨[]⟩)) := by
  constructor
  · intro text fuel hlen
    unfold chunk_text
    rw [if_pos hlen]
  · intro embed st text name hc
    unfold add_document
    rw [hc]
    rfl

set_option maxRecDepth 10000 in
/-- C7 amended witness: the single space is returned whole; 1001 spaces
chunk to nothing and `add_document` fails with the no-chunks error,
clearing a previously filled store. -/
theorem chunk_trim_applies_only_beyond_chunk_size_witness :
    chunk_text 1000 200 [' '] 5 = some [[' ']] ∧
    add_document (fun cs => .ok (cs.map (fun _ => [])))
        ⟨[⟨"old_chunk_0", [], ['x'], "old", 0, 1⟩]⟩
        (List.replicate 1001 ' ') "doc" =
      (.failure "No chunks created from document", ⟨[]⟩) :=
  ⟨chunk_trim_applies_only_beyond_chunk_size.1 [' '] 5 (by decide),
   chunk_trim_applies_only_beyond_chunk_size.2 _ _ _ _ (by decide)⟩

/-- The C8 counterexample dataset: explicit drop-count columns present
(aggregate rate 1%, per-area rate 1%, no per-customer outlier) AND a
`call_duration` column whose two calls are both under 3 seconds. -/
def c8df : DataFrame :=
  ⟨2, some [some "c1", some "c2"], some [some "A", some "A"], none,
   some [.val 100, .val 100], some [.val 1, .val 1],
   some [.val 1, .val 1], none, none, none⟩

set_option maxRecDepth 4000 in
/-- C8 counterexample: the duration-based proxy is NOT suppressed when
the explicit drop columns are present — on `c8df` the scan succeeds and
reports exactly the duration-based high-tier finding. -/
theorem duration_proxy_fires_despite_explicit_columns :
    analyze_compliance_violations c8df =
      (.success ⟨[⟨"Duration-based Call Drop Detection", .val 2,
                   some "₹5-10 lakh (Severe violation)"⟩], [], []⟩
                ⟨2, 1, 0, 0, 60, 300000, true⟩,
       { c8df with customer_drop_rate := some [.val 1, .val 1] }) := by
  decide

/-- C8 amended: Method 4 is gated only on the presence of the
`call_duration` column, not on the absence of the explicit drop-count
columns; whenever its under-3-seconds rate exceeds 2% it emits the
duration-based high-tier finding even though both explicit columns are
present. -/
theorem duration_proxy_not_gated_on_drop_columns (df : DataFrame)
    (durs : List PFloat) (h : df.call_duration = some durs)
    (_hd : df.call_drop_cnt_d.isSome = true) (_ht : df.tot_call_cnt_d.isSome = true)
    (hrate : (durationDropRate df).gtQ 2 = true) :
    method4 df = ⟨[⟨"Duration-based Call Drop Detection",
      .val (((durs.filter (fun d => d.ltQ 3)).length : ℚ)),
      some (get_drop_penalty_tier (durationDropRate df)).penalty⟩], [], []⟩ := by
  unfold method4
  rw [h]
  simp only [hrate, if_true]

/-- C8 amended witness: `c8df` carries both explicit columns and a
duration-based rate of 100%. -/
theorem duration_proxy_not_gated_on_drop_columns_witness :
    method4 c8df = ⟨[⟨"Duration-based Call Drop Detection", .val 2,
      some (get_drop_penalty_tier (durationDropRate c8df)).penalty⟩], [], []⟩ :=
  duration_proxy_not_gated_on_drop_columns c8df [.val 1, .val 1] rfl
    rfl rfl (by decide)

/-- C10: `add_document` clears the store before chunking and embedding,
so the post-call store never depends on what was stored before — and
every failing call (no chunks, failed embedding) leaves the store
empty.  No chunk of a previously added document ever survives an
`add_document` call, successful or not. -/
theorem add_document_never_keeps_prior_chunks
    (embed : List (List Char) → Except String (List (List ℚ)))
    (st : RAGState) (text : List Char) (name : String) :
    (add_document embed st text name).2 = (add_document embed ⟨[]⟩ text name).2 ∧
    (∀ e, (add_document embed st text name).1 = .failure e →
       (add_document embed st text name).2 = ⟨[]⟩) := by
  constructor
  · rfl
  · intro e h
    unfold add_document at h ⊢
    cases hc : chunkTextDefault text with
    | none => simp [hc, clear_documents]
    | some chunks =>
      by_cases he : chunks.isEmpty
      · simp [he, clear_documents]
      · simp only [he, Bool.false_eq_true, if_false] at h ⊢
        cases hemb : embed chunks with
        | error e2 => simp [hemb, clear_documents]
        | ok embs =>
          simp [hc, he, hemb] at h

/-- C10 witness: a failing embedding call on a store holding a chunk of
an earlier document leaves the store empty. -/
theorem add_document_never_keeps_prior_chunks_witness :
    (add_document (fun _ => .error "boom")
       ⟨[⟨"old_chunk_0", [], ['x'], "old", 0, 1⟩]⟩ ['h'] "d").2 = ⟨[]⟩ :=
  (add_document_never_keeps_prior_chunks (fun _ => .error "boom")
     ⟨[⟨"old_chunk_0", [], ['x'], "old", 0, 1⟩]⟩ ['h'] "d").2 "boom" (by decide)
